import Mathlib

/-!
# Verification of the restaurant-pos order-and-payment settlement engine

Shallow embedding of the settlement core of the TechWithMary/restaurant-pos
repository:

* `PaymentService.calculateTotals`, `validateColombianPayment` and
  `processColombianPayment` (server/payments-service.ts),
* the in-memory storage operations on order items and tables
  (server/n8n-storage.ts),
* the HTTP route handlers `POST /api/order-items`,
  `PUT /api/order-items/:id`, `DELETE /api/order-items/:id` and
  `POST /api/payments/complete-colombian` (server/routes.ts).

Modelling conventions:

* JavaScript `number` arithmetic is modelled by exact rational arithmetic
  over `ℚ`; `Math.round` is modelled as `fun x => ⌊x + 1/2⌋` (round half
  toward positive infinity), which is the ECMAScript specification of
  `Math.round`.  All monetary quantities appearing in the code fit
  comfortably inside exactly representable doubles at the cent scale, so
  the rational model is the intended semantics of the code.
* A JavaScript `Map` is modelled as a `List` of its values (insertion
  order), with the key stored inside the value; `Map.delete k` removes the
  entries whose key is `k` (under the map invariant the key is unique).
* `undefined`/absent optional values are modelled by `Option`.
* Functions that can `throw` are modelled in `Except String`.
-/

set_option maxHeartbeats 1000000

namespace RestaurantPos

instance {ε α : Type} [DecidableEq ε] [DecidableEq α] : DecidableEq (Except ε α) := fun
  | .error a, .error b =>
      if h : a = b then .isTrue (by rw [h]) else .isFalse (by simp [h])
  | .error _, .ok _ => .isFalse (by simp)
  | .ok _, .error _ => .isFalse (by simp)
  | .ok a, .ok b =>
      if h : a = b then .isTrue (by rw [h]) else .isFalse (by simp [h])

/-- ECMAScript `Math.round`: round half toward positive infinity. -/
def jsRound (q : ℚ) : ℤ := ⌊q + 1/2⌋

/-- The ubiquitous `Math.round(x * 100) / 100` cent-rounding idiom of the
source (payments-service.ts and routes.ts). -/
def round2 (q : ℚ) : ℚ := (jsRound (q * 100) : ℚ) / 100

/-- `discountType` field: `"percentage" | "fixed"`. -/
inductive DiscountType where
  | percentage
  | fixed
deriving DecidableEq, Repr

/-- `PaymentCalculation` (payments-service.ts).  `calculateTotals` never
sets the optional `change` field, so it is omitted here; the `change` for
cash payments is computed separately by `processColombianPayment`. -/
structure PaymentCalculation where
  subtotal : ℚ
  impoconsumo : ℚ
  tip : ℚ
  discount : ℚ
  finalTotal : ℚ
deriving DecidableEq, Repr

/-- `PaymentService.IMPOCONSUMO_RATE = 0.08` (8% Colombia). -/
def IMPOCONSUMO_RATE : ℚ := 8 / 100

/-- `PaymentService.calculateTotals(subtotal, tip = 0, discount = 0,
discountType = "percentage")` (payments-service.ts lines 53-83).
Throws when any of the three amounts is negative. -/
def calculateTotals (subtotal : ℚ) (tip : ℚ) (discount : ℚ)
    (discountType : DiscountType) : Except String PaymentCalculation :=
  if subtotal < 0 ∨ tip < 0 ∨ discount < 0 then
    .error "Los montos no pueden ser negativos"
  else
    let discountAmount :=
      if discountType = .percentage then round2 (subtotal * discount / 100)
      else round2 discount
    let finalSubtotal := max 0 (subtotal - discountAmount)
    let impoconsumo := round2 (finalSubtotal * IMPOCONSUMO_RATE)
    let tipAmount := round2 tip
    let finalTotal := finalSubtotal + impoconsumo + tipAmount
    .ok { subtotal := round2 subtotal
          impoconsumo := impoconsumo
          tip := tipAmount
          discount := discountAmount
          finalTotal := round2 finalTotal }

/-- `datafonoType` field: `"debito" | "credito"`. -/
inductive DatafonoType where
  | debito
  | credito
deriving DecidableEq, Repr

/-- `ColombianPaymentData` (payments-service.ts lines 22-35).  The payment
method is kept as a raw string because `validateColombianPayment` receives
it untyped (`paymentMethod as any` at routes.ts:477) and has a `default`
branch for unrecognized values.  Neither this type nor any other type of
the data model carries a card primary account number: the only
card-related fields are the terminal transaction id and the terminal kind. -/
structure ColombianPaymentData where
  tableId : Int
  employeeId : String
  paymentMethod : String
  subtotal : ℚ
  tip : ℚ
  discount : ℚ
  discountType : DiscountType
  cashReceived : Option ℚ
  datafonoTransactionId : Option String
  datafonoType : Option DatafonoType
  qrReference : Option String
deriving DecidableEq, Repr

/-- `PaymentValidationResult` (payments-service.ts lines 37-40). -/
structure PaymentValidationResult where
  isValid : Bool
  errors : List String
deriving DecidableEq, Repr

/-- `paymentMethodSchema = z.enum(["efectivo", "datafono_debito",
"datafono_credito", "qr_bancolombia"])` (shared/schema.ts line 276). -/
def paymentMethodSchemaOk (m : String) : Bool :=
  m == "efectivo" || m == "datafono_debito" || m == "datafono_credito" ||
    m == "qr_bancolombia"

/-- Message text of the cash-shortfall validation error
(payments-service.ts line 124).  The source interpolates
`totals.finalTotal.toFixed(2)`; no claim inspects the rendering of the
amount, so it is rendered here with `toString`. -/
def efectivoInsuficienteError (finalTotal : ℚ) : String :=
  "Efectivo insuficiente. Se requieren $" ++ toString finalTotal

/-- `PaymentService.validateColombianPayment` (payments-service.ts lines
88-154).  JavaScript falsiness of the guarded fields is modelled exactly:
`!employeeId || employeeId.trim() === ""` is equivalent to
`employeeId.trim = ""`, `!tableId || tableId <= 0` to `tableId ≤ 0`, and
`!cashReceived || cashReceived <= 0` to `cashReceived = none ∨ cash ≤ 0`.
The `efectivo` branch calls `calculateTotals`, whose exception (negative
amounts) propagates out of the validator, hence the `Except`. -/
def validateColombianPayment (d : ColombianPaymentData) :
    Except String PaymentValidationResult :=
  let errors : List String := []
  let errors := if d.employeeId.trim = "" then
    errors ++ ["ID de empleado es requerido"] else errors
  let errors := if d.tableId ≤ 0 then
    errors ++ ["ID de mesa válido es requerido"] else errors
  let errors := if d.subtotal ≤ 0 then
    errors ++ ["Subtotal debe ser mayor que cero"] else errors
  let errors := if paymentMethodSchemaOk d.paymentMethod then errors
    else errors ++ ["Método de pago inválido para Colombia"]
  let afterSwitch : Except String (List String) :=
    if d.paymentMethod = "efectivo" then
      match d.cashReceived with
      | none => .ok (errors ++ ["Monto recibido en efectivo es requerido"])
      | some cash =>
        if cash ≤ 0 then
          .ok (errors ++ ["Monto recibido en efectivo es requerido"])
        else
          match calculateTotals d.subtotal d.tip d.discount d.discountType with
          | .error e => .error e
          | .ok totals =>
            if cash < totals.finalTotal then
              .ok (errors ++ [efectivoInsuficienteError totals.finalTotal])
            else .ok errors
    else if d.paymentMethod = "datafono_debito" ∨
        d.paymentMethod = "datafono_credito" then
      let errors :=
        match d.datafonoTransactionId with
        | none => errors ++ ["ID de transacción de datáfono es requerido"]
        | some s =>
          if s.trim = "" then
            errors ++ ["ID de transacción de datáfono es requerido"]
          else errors
      let errors := if d.datafonoType = none then
        errors ++ ["Tipo de datáfono (débito/crédito) es requerido"] else errors
      .ok errors
    else if d.paymentMethod = "qr_bancolombia" then
      let errors :=
        match d.qrReference with
        | none => errors ++ ["Referencia de QR Bancolombia es requerida"]
        | some s =>
          if s.trim = "" then
            errors ++ ["Referencia de QR Bancolombia es requerida"]
          else errors
      .ok errors
    else
      .ok (errors ++ ["Método de pago no reconocido"])
  match afterSwitch with
  | .error e => .error e
  | .ok errors => .ok { isValid := errors.isEmpty, errors := errors }

/-- `InsertPayment` as constructed by `processColombianPayment`
(payments-service.ts lines 186-203; columns of the `payments` table,
shared/schema.ts lines 105-125).  The source stringifies the numeric
fields for the ORM (`.toString()`); the rational values are kept here.
The table has no card-number column: the card-related columns are
`datafono_transaction_id` and `datafono_type` only. -/
structure InsertPayment where
  tableId : Int
  employeeId : String
  paymentMethod : String
  amount : ℚ
  subtotal : ℚ
  impoconsumo : ℚ
  tip : ℚ
  discount : ℚ
  discountType : DiscountType
  datafonoTransactionId : Option String
  datafonoType : Option DatafonoType
  qrReference : Option String
  cashReceived : Option ℚ
  change : Option ℚ
  status : String
deriving DecidableEq, Repr

/-- Result of `processColombianPayment` (payments-service.ts lines 160-210). -/
structure ProcessedPayment where
  payment : InsertPayment
  calculation : PaymentCalculation
  change : Option ℚ
deriving DecidableEq, Repr

/-- `PaymentService.processColombianPayment` (payments-service.ts lines
160-210).  Throws (models as `.error`) when validation fails, joining the
error list; `change` is computed only for `efectivo` with a truthy
(nonzero, present) `cashReceived`. -/
def processColombianPayment (d : ColombianPaymentData) :
    Except String ProcessedPayment :=
  match validateColombianPayment d with
  | .error e => .error e
  | .ok validation =>
    if !validation.isValid then
      .error ("Errores de validación: " ++
        String.intercalate ", " validation.errors)
    else
      match calculateTotals d.subtotal d.tip d.discount d.discountType with
      | .error e => .error e
      | .ok calculation =>
        let change : Option ℚ :=
          if d.paymentMethod = "efectivo" then
            match d.cashReceived with
            | some cash =>
              if cash = 0 then none
              else some (round2 (cash - calculation.finalTotal))
            | none => none
          else none
        .ok { payment :=
                { tableId := d.tableId
                  employeeId := d.employeeId
                  paymentMethod := d.paymentMethod
                  amount := calculation.finalTotal
                  subtotal := calculation.subtotal
                  impoconsumo := calculation.impoconsumo
                  tip := calculation.tip
                  discount := calculation.discount
                  discountType := d.discountType
                  datafonoTransactionId := d.datafonoTransactionId
                  datafonoType := d.datafonoType
                  qrReference := d.qrReference
                  cashReceived := d.cashReceived
                  change := change
                  status := "pending" }
              calculation := calculation
              change := change }

/-- `InsertInvoice` as produced by `generateBasicInvoice`
(payments-service.ts lines 216-237). -/
structure InsertInvoice where
  paymentId : String
  invoiceNumber : String
  cufe : String
  nit : String
  clientName : String
  clientDocument : String
  clientDocumentType : String
  subtotal : ℚ
  impoconsumo : ℚ
  totalAmount : ℚ
  qrCode : String
  xmlSigned : String
  dianStatus : String
deriving DecidableEq, Repr

/-- `PaymentService.generateBasicInvoice(payment, invoiceNumber)`
(payments-service.ts lines 216-237); `cufeUuid` is the `randomUUID()` of
line 218, `paymentId` is the id of the payment record passed in. -/
def generateBasicInvoice (cufeUuid : String) (paymentId : String)
    (payment : InsertPayment) (invoiceNumber : String) : InsertInvoice :=
  { paymentId := paymentId
    invoiceNumber := invoiceNumber
    cufe := "TEMP-" ++ cufeUuid
    nit := "900123456-1"
    clientName := "CONSUMIDOR FINAL"
    clientDocument := ""
    clientDocumentType := "CC"
    subtotal := payment.subtotal
    impoconsumo := payment.impoconsumo
    totalAmount := payment.amount
    qrCode := ""
    xmlSigned := ""
    dianStatus := "pending" }

/-- A row of the `order_items` table (shared/schema.ts lines 23-29).  The
in-memory storage keeps these in a `Map` keyed by `id`; the map is
modelled as the list of its values in insertion order. -/
structure OrderItem where
  id : String
  productId : String
  quantity : Int
  orderId : Option String
  mesaId : Int
deriving DecidableEq, Repr

/-- A row of the `products` table (shared/schema.ts lines 14-20).  The
price is a decimal string in the schema; the routes always consume it via
`parseFloat(product.price)`, so it is modelled as the parsed rational. -/
structure Product where
  id : String
  name : String
  description : String
  price : ℚ
  categoryId : String
deriving DecidableEq, Repr

/-- A row of the `tables` table (shared/schema.ts lines 32-37). -/
structure Table where
  id : Int
  number : Int
  capacity : Int
  status : String
deriving DecidableEq, Repr

/-- `insertOrderItemSchema` payload (`createInsertSchema(orderItems).omit(id)`,
shared/schema.ts line 42): `quantity` and `orderId` have column defaults and
are optional; `createOrderItem` applies `?? 1` and `?? null`. -/
structure InsertOrderItem where
  productId : String
  quantity : Option Int
  orderId : Option String
  mesaId : Int
deriving DecidableEq, Repr

/-- `N8nStorage.getOrderItems(mesaId)` (n8n-storage.ts lines 168-170):
the values of the map filtered by `mesaId`. -/
def getOrderItems (orderItems : List OrderItem) (mesaId : Int) :
    List OrderItem :=
  orderItems.filter (fun item => item.mesaId = mesaId)

/-- `storage.getProduct(id)`: `products.find(product => product.id === id)`
over the catalog snapshot (n8n-storage.ts lines 158-161). -/
def getProduct (products : List Product) (id : String) : Option Product :=
  products.find? (fun product => product.id = id)

/-- `N8nStorage.getTable(id)` (n8n-storage.ts). -/
def getTable (tables : List Table) (id : Int) : Option Table :=
  tables.find? (fun table => table.id = id)

/-- `N8nStorage.createOrderItem(orderItem)` (n8n-storage.ts lines 172-183);
`newId` stands for the generated `Date.now().toString() + Math.random()...`
key.  Inserting a fresh key into the map appends to its value list. -/
def createOrderItem (orderItems : List OrderItem) (newId : String)
    (orderItem : InsertOrderItem) : OrderItem × List OrderItem :=
  let newOrderItem : OrderItem :=
    { id := newId
      productId := orderItem.productId
      quantity := orderItem.quantity.getD 1
      orderId := orderItem.orderId
      mesaId := orderItem.mesaId }
  (newOrderItem, orderItems ++ [newOrderItem])

/-- `N8nStorage.updateOrderItemQuantity(id, quantity, mesaId)`
(n8n-storage.ts lines 185-192).  The quantity is written only when the
found item belongs to `mesaId`, but the found item is returned in either
case — on a mesa mismatch the unmodified item (a non-`undefined` value)
is the result. -/
def updateOrderItemQuantity (orderItems : List OrderItem) (id : String)
    (quantity : Int) (mesaId : Int) : Option OrderItem × List OrderItem :=
  match orderItems.find? (fun item => item.id = id) with
  | none => (none, orderItems)
  | some orderItem =>
    if orderItem.mesaId = mesaId then
      let updated := { orderItem with quantity := quantity }
      (some updated,
        orderItems.map (fun item => if item.id = id then updated else item))
    else
      (some orderItem, orderItems)

/-- `N8nStorage.deleteOrderItem(id, mesaId)` (n8n-storage.ts lines
194-200): deletes (and returns `true`) only when the found item belongs
to `mesaId`, otherwise returns `false` without touching the map. -/
def deleteOrderItem (orderItems : List OrderItem) (id : String)
    (mesaId : Int) : Bool × List OrderItem :=
  match orderItems.find? (fun item => item.id = id) with
  | none => (false, orderItems)
  | some orderItem =>
    if orderItem.mesaId = mesaId then
      (true, orderItems.filter (fun item => ¬ item.id = id))
    else
      (false, orderItems)

/-- `N8nStorage.clearOrderItems(mesaId)` (n8n-storage.ts lines 202-208):
collect the keys of the entries whose `mesaId` matches, then delete each
collected key (`itemsToDelete.forEach(id => this.orderItems.delete(id))`). -/
def clearOrderItems (orderItems : List OrderItem) (mesaId : Int) :
    List OrderItem :=
  let itemsToDelete :=
    (orderItems.filter (fun item => item.mesaId = mesaId)).map
      (fun item => item.id)
  itemsToDelete.foldl
    (fun acc id => acc.filter (fun item => ¬ item.id = id)) orderItems

/-- `N8nStorage.updateTableStatus(id, status)` (n8n-storage.ts lines
617-629): returns the updated table, or `none` (never creating a table)
when the id is unknown. -/
def updateTableStatus (tables : List Table) (id : Int) (status : String) :
    Option Table × List Table :=
  match tables.find? (fun table => table.id = id) with
  | some table =>
    let updatedTable := { table with status := status }
    (some updatedTable,
      tables.map (fun t => if t.id = id then updatedTable else t))
  | none => (none, tables)

/-- The success payload `responseData` of the Colombian settlement route
(routes.ts lines 605-637), as far as its shape is declared by the object
literal.  NOTE: at runtime this object is never completed — evaluating
the literal throws a `ReferenceError` (see `settle` below) — so values of
this type never enter the idempotency cache. -/
structure ResponseData where
  success : Bool
  message : String
  tableId : Int
  paymentMethod : String
  paymentId : String
  invoiceNumber : String
  idempotencyKey : String
deriving DecidableEq, Repr

/-- The idempotency cache key of routes.ts line 439:
`tableId + "_" + paymentMethod + "_" + JSON.stringify(key-fields)` with
key-fields `tip, discount, cashReceived, datafonoTransactionId,
qrReference` in that fixed order.  The string is an injective encoding of
this tuple (tableId is a number, paymentMethod an enum value, and
`JSON.stringify` escapes its string values), so the key is modelled as
the tuple itself.  It is timestamp-free; the caller-declared `subtotal`,
`impoconsumo`, `discountType` and `datafonoType` do not enter it. -/
structure CacheKey where
  tableId : Int
  paymentMethod : String
  tip : ℚ
  discount : ℚ
  cashReceived : Option ℚ
  datafonoTransactionId : Option String
  qrReference : Option String
deriving DecidableEq, Repr

/-- The zod-validated body of `POST /api/payments/complete-colombian`
(`completePaymentColombianSchema`, shared/schema.ts lines 282-296,
destructured at routes.ts lines 423-435).  `subtotal` and `impoconsumo`
are accepted from the caller but never used by the handler. -/
structure SettleRequest where
  tableId : Int
  paymentMethod : String
  subtotal : ℚ
  impoconsumo : ℚ
  tip : ℚ
  discount : ℚ
  discountType : DiscountType
  cashReceived : Option ℚ
  datafonoTransactionId : Option String
  datafonoType : Option DatafonoType
  qrReference : Option String
deriving DecidableEq, Repr

/-- The fingerprint extraction of routes.ts line 439. -/
def cacheKeyOf (req : SettleRequest) : CacheKey :=
  { tableId := req.tableId
    paymentMethod := req.paymentMethod
    tip := req.tip
    discount := req.discount
    cashReceived := req.cashReceived
    datafonoTransactionId := req.datafonoTransactionId
    qrReference := req.qrReference }

/-- The server-side mutable state touched by the modelled routes: the
order-item map and table map of the `N8nStorage` singleton and the
module-level `idempotencyCache` of routes.ts line 415. -/
structure ServerState where
  orderItems : List OrderItem
  tables : List Table
  idempotencyCache : List (CacheKey × ResponseData)
deriving DecidableEq, Repr

/-- The nondeterministic inputs of one settlement run: generated UUIDs,
clock readings, and the behaviour of the external n8n workflow calls.
`n8nExecutionId = none` covers both an n8n failure and an unavailable n8n
service — the handler swallows both and continues with
`executionId: null` (routes.ts lines 518-525). -/
structure SettleEnv where
  tempEmployeeId : String
  n8nExecutionId : Option String
  fallbackPaymentId : String
  cufeUuid : String
  invoiceId : String
  nowIso : String
  nowMs : Int
deriving Repr

/-- `createdPayment` (routes.ts lines 529-533): the processed
`InsertPayment` plus the generated id and timestamp. -/
structure PaymentRecord where
  payment : InsertPayment
  id : String
  createdAt : String
deriving DecidableEq, Repr

/-- `createdInvoice` (routes.ts lines 544-548). -/
structure InvoiceRecord where
  invoice : InsertInvoice
  id : String
  createdAt : String
deriving DecidableEq, Repr

/-- The externally observable outcome of one
`POST /api/payments/complete-colombian` request. -/
inductive SettleOutcome where
  /-- Cache hit (routes.ts lines 442-446): HTTP 200 with the cached
  response, nothing else happens. -/
  | cachedReplay (resp : ResponseData)
  /-- Empty ledger (routes.ts lines 450-452): HTTP 400
  "No order items found for this table". -/
  | noItems
  /-- `processColombianPayment` threw (routes.ts lines 489-497):
  HTTP 400 with the thrown message. -/
  | validationFailed (msg : String)
  /-- The outer catch (routes.ts lines 646-652): HTTP 500. -/
  | internalError
deriving DecidableEq, Repr

/-- Result of one settlement request: outcome, the payment and invoice
records the run constructed (ghost observation of routes.ts lines 529 and
544), and the post-state. -/
structure SettleResult where
  outcome : SettleOutcome
  createdPayment : Option PaymentRecord
  createdInvoice : Option InvoiceRecord
  state : ServerState
deriving Repr

/-- The `serverSubtotal` loop of routes.ts lines 455-468: order lines
whose product lookup fails contribute nothing. -/
def serverSubtotalOf (products : List Product) (items : List OrderItem) : ℚ :=
  items.foldl
    (fun acc item =>
      match getProduct products item.productId with
      | some product => acc + (item.quantity : ℚ) * product.price
      | none => acc)
    0

/-- The `POST /api/payments/complete-colombian` handler (routes.ts lines
419-653), for an already zod-validated body.

Control flow, in source order: idempotency-cache lookup (439-446); load
the ledger, failing on an empty one (449-452); authoritative server-side
subtotal (455-468); validation and processing via
`PaymentService.processColombianPayment` on the server subtotal — the
caller-declared `subtotal` is never used — aborting with HTTP 400 and no
side effects on a validation throw (471-497); best-effort n8n payment
workflow (503-525, external only); construction of the payment record
(528-535) and invoice record (537-550); best-effort DIAN-invoice and
analytics workflow calls (552-584, external only); the commit — clear the
table's order items and free the table (586-588).

After the commit the handler builds `responseData` (604-637).  That
object literal reads `invoiceWorkflowResponse` (lines 625 and 633), but
`invoiceWorkflowResponse` is a `const` declared *inside* the `try` block
at line 554 and is block-scoped to it, so the read throws a
`ReferenceError` (TypeScript: TS2304), which the outer catch (646-652)
converts into an HTTP 500.  The cache write
`idempotencyCache.set(cacheKey, responseData)` at line 640 and the
success reply at line 645 are therefore unreachable: a run that commits
still answers 500 and caches nothing. -/
def settle (env : SettleEnv) (products : List Product) (req : SettleRequest)
    (st : ServerState) : SettleResult :=
  let cacheKey := cacheKeyOf req
  match st.idempotencyCache.find? (fun e => e.1 = cacheKey) with
  | some e =>
    { outcome := .cachedReplay e.2
      createdPayment := none
      createdInvoice := none
      state := st }
  | none =>
    let orderItems := getOrderItems st.orderItems req.tableId
    if orderItems.length = 0 then
      { outcome := .noItems
        createdPayment := none
        createdInvoice := none
        state := st }
    else
      let serverSubtotal := serverSubtotalOf products orderItems
      let paymentData : ColombianPaymentData :=
        { tableId := req.tableId
          employeeId := env.tempEmployeeId
          paymentMethod := req.paymentMethod
          subtotal := serverSubtotal
          tip := req.tip
          discount := req.discount
          discountType := req.discountType
          cashReceived := req.cashReceived
          datafonoTransactionId := req.datafonoTransactionId
          datafonoType := req.datafonoType
          qrReference := req.qrReference }
      match processColombianPayment paymentData with
      | .error msg =>
        { outcome := .validationFailed msg
          createdPayment := none
          createdInvoice := none
          state := st }
      | .ok processed =>
        let paymentId := env.n8nExecutionId.getD env.fallbackPaymentId
        let createdPayment : PaymentRecord :=
          { payment := processed.payment
            id := paymentId
            createdAt := env.nowIso }
        let invoiceNumber :=
          "COL-" ++ toString env.nowMs ++ "-" ++ toString req.tableId
        let createdInvoice : InvoiceRecord :=
          { invoice := generateBasicInvoice env.cufeUuid paymentId
              processed.payment invoiceNumber
            id := env.invoiceId
            createdAt := env.nowIso }
        let orderItemsAfter := clearOrderItems st.orderItems req.tableId
        let tablesAfter := (updateTableStatus st.tables req.tableId "available").2
        { outcome := .internalError
          createdPayment := some createdPayment
          createdInvoice := some createdInvoice
          state :=
            { orderItems := orderItemsAfter
              tables := tablesAfter
              idempotencyCache := st.idempotencyCache } }

/-- Outcome of `POST /api/order-items` (routes.ts lines 120-165), for an
already zod-validated body. -/
inductive AddItemOutcome where
  /-- routes.ts lines 126-128: HTTP 404 "Product not found". -/
  | productNotFound
  /-- routes.ts lines 150-160: HTTP 201 with the created item and the
  `tableStatusChanged` hint. -/
  | created (item : OrderItem) (tableStatusChanged : Bool)
deriving DecidableEq, Repr

/-- The `POST /api/order-items` handler (routes.ts lines 120-165):
validate the product, apply the first-item occupancy safeguard (lines
130-148: when the table currently has no items and its status is
`available`, set it to `occupied`), then create the item. -/
def postOrderItem (newId : String) (products : List Product)
    (orderItemData : InsertOrderItem) (st : ServerState) :
    AddItemOutcome × ServerState :=
  match getProduct products orderItemData.productId with
  | none => (.productNotFound, st)
  | some _product =>
    let existingItems := getOrderItems st.orderItems orderItemData.mesaId
    let isFirstItem := existingItems.length == 0
    let tablesAndChanged :=
      if isFirstItem then
        match getTable st.tables orderItemData.mesaId with
        | some table =>
          if table.status = "available" then
            ((updateTableStatus st.tables orderItemData.mesaId "occupied").2,
              true)
          else (st.tables, false)
        | none => (st.tables, false)
      else (st.tables, false)
    let created := createOrderItem st.orderItems newId orderItemData
    (.created created.1 tablesAndChanged.2,
      { st with orderItems := created.2, tables := tablesAndChanged.1 })

/-- Outcome of `PUT /api/order-items/:id` and
`DELETE /api/order-items/:id` (routes.ts lines 167-225). -/
inductive ItemRouteOutcome where
  /-- HTTP 400 on a bad `quantity` or `mesa_id`. -/
  | badRequest (msg : String)
  /-- HTTP 404. -/
  | notFound (msg : String)
  /-- HTTP 200 with the item returned by the storage layer. -/
  | ok (item : OrderItem)
  /-- HTTP 204 (successful delete). -/
  | noContent
deriving DecidableEq, Repr

/-- The `PUT /api/order-items/:id` handler (routes.ts lines 167-201):
guards on `quantity` and `mesa_id`, then answers 404 with
"Order item not found or does not belong to this mesa" only when the
storage update returned `undefined`. -/
def putOrderItemRoute (products : List Product) (id : String)
    (quantity : Int) (mesa_id : Int) (st : ServerState) :
    ItemRouteOutcome × ServerState :=
  if quantity < 1 then (.badRequest "Invalid quantity", st)
  else if mesa_id ≤ 0 then
    (.badRequest "mesa_id is required and must be a positive integer", st)
  else
    let updated := updateOrderItemQuantity st.orderItems id quantity mesa_id
    let stAfter := { st with orderItems := updated.2 }
    match updated.1 with
    | none =>
      (.notFound "Order item not found or does not belong to this mesa",
        stAfter)
    | some orderItem =>
      match getProduct products orderItem.productId with
      | none => (.notFound "Product not found", stAfter)
      | some _product => (.ok orderItem, stAfter)

/-- The `DELETE /api/order-items/:id` handler (routes.ts lines 203-225). -/
def deleteOrderItemRoute (id : String) (mesaId : Int) (st : ServerState) :
    ItemRouteOutcome × ServerState :=
  if mesaId ≤ 0 then
    (.badRequest "mesa_id must be a positive integer", st)
  else
    let deleted := deleteOrderItem st.orderItems id mesaId
    let stAfter := { st with orderItems := deleted.2 }
    if deleted.1 then (.noContent, stAfter)
    else
      (.notFound "Order item not found or does not belong to this mesa",
        stAfter)

/-! ### Concrete fixtures

Catalog rows are taken from the fallback menu of n8n-storage.ts
(lines 422-430); the states below are reachable by the modelled
operations and are used to instantiate theorems on concrete inputs. -/

def prodPaella : Product :=
  { id := "1", name := "Paella Valenciana"
    description := "Arroz bomba tradicional con pollo y verduras"
    price := 24.50, categoryId := "1" }

def prodCerveza : Product :=
  { id := "4", name := "Cerveza Estrella Galicia"
    description := "Cerveza rubia, botella 330ml"
    price := 3.50, categoryId := "2" }

def demoProducts : List Product := [prodPaella, prodCerveza]

def demoItemMesa1 : OrderItem :=
  { id := "it1", productId := "1", quantity := 2, orderId := none, mesaId := 1 }

def demoItemMesa2 : OrderItem :=
  { id := "it2", productId := "4", quantity := 3, orderId := none, mesaId := 2 }

def demoTables : List Table :=
  [ { id := 1, number := 1, capacity := 4, status := "occupied" }
  , { id := 2, number := 2, capacity := 2, status := "occupied" }
  , { id := 3, number := 3, capacity := 6, status := "available" } ]

def demoState : ServerState :=
  { orderItems := [demoItemMesa1, demoItemMesa2]
    tables := demoTables
    idempotencyCache := [] }

def demoEnv : SettleEnv :=
  { tempEmployeeId := "3f2504e0-4f89-11d3-9a0c-0305e82c3301"
    n8nExecutionId := none
    fallbackPaymentId := "pay-0001"
    cufeUuid := "cufe-0001"
    invoiceId := "inv-0001"
    nowIso := "2026-01-02T03:04:05.000Z"
    nowMs := 1767322800000 }

/-- A cash settlement of table 1 (server subtotal `2 * 24.50 = 49.00`,
total `49.00 + 3.92 = 52.92`); the caller-declared `subtotal := 999` is
deliberately wrong to exercise that it is ignored. -/
def demoReqCash : SettleRequest :=
  { tableId := 1, paymentMethod := "efectivo", subtotal := 999
    impoconsumo := 0, tip := 0, discount := 0, discountType := .percentage
    cashReceived := some 100, datafonoTransactionId := none
    datafonoType := none, qrReference := none }

/-- Same settlement with insufficient cash: validation fails. -/
def demoReqShortCash : SettleRequest :=
  { demoReqCash with cashReceived := some 10 }

/-- A card-terminal settlement of table 2 (server subtotal
`3 * 3.50 = 10.50`, total `10.50 + 0.84 + 2 = 13.34`). -/
def demoReqDatafono : SettleRequest :=
  { tableId := 2, paymentMethod := "datafono_debito", subtotal := 0
    impoconsumo := 0, tip := 2, discount := 0, discountType := .percentage
    cashReceived := none, datafonoTransactionId := some "TX-778899"
    datafonoType := some .debito, qrReference := none }

/-- A valid card-terminal `ColombianPaymentData`. -/
def demoDatafonoData : ColombianPaymentData :=
  { tableId := 2, employeeId := "cashier-1"
    paymentMethod := "datafono_debito", subtotal := 10.50, tip := 2
    discount := 0, discountType := .percentage, cashReceived := none
    datafonoTransactionId := some "TX-778899"
    datafonoType := some .debito, qrReference := none }

/-- A `ColombianPaymentData` with a zero subtotal (QR method). -/
def demoZeroSubtotalData : ColombianPaymentData :=
  { tableId := 2, employeeId := "cashier-1"
    paymentMethod := "qr_bancolombia", subtotal := 0, tip := 0
    discount := 0, discountType := .percentage, cashReceived := none
    datafonoTransactionId := none, datafonoType := none
    qrReference := some "QR-556677" }

/-- Junk default used only to extract values out of `Option` in closed
witness statements. -/
def dummyPayment : PaymentRecord :=
  { payment :=
      { tableId := 0, employeeId := "", paymentMethod := "", amount := 0
        subtotal := 0, impoconsumo := 0, tip := 0, discount := 0
        discountType := .percentage, datafonoTransactionId := none
        datafonoType := none, qrReference := none, cashReceived := none
        change := none, status := "" }
    id := "", createdAt := "" }

def demoInsertItem : InsertOrderItem :=
  { productId := "1", quantity := some 1, orderId := none, mesaId := 3 }

/-- Table 3 of `demoTables`: `available` with no order lines. -/
def demoTable3 : Table :=
  { id := 3, number := 3, capacity := 6, status := "available" }

/-! ### Claim-side definitions

The following definitions are written from the words of the
specification (not from the source) and exist to be compared against the
source-derived `calculateTotals`. -/

/-- The discount amount as `calculateTotals` computes it (source,
payments-service.ts lines 65-67): rounded to cents. -/
def discountAmountOf (subtotal discount : ℚ) (discountType : DiscountType) :
    ℚ :=
  if discountType = .percentage then round2 (subtotal * discount / 100)
  else round2 discount

/-- The literal reading of the spec's pricing algorithm
(`discountAmount = discountType=percentage ? subtotal*discount/100 :
discount`, clamped `finalSubtotal`, `tax = round2(finalSubtotal *
taxRate)`, `finalTotal = finalSubtotal + tax + round2(tip)`), stated as a
predicate on the returned breakdown, with the tax rate instantiated at
the code's only rate `IMPOCONSUMO_RATE`.  Note the spec text applies no
rounding to `discountAmount` and no rounding to `finalTotal`. -/
def ClaimedBreakdown (s t d : ℚ) (dt : DiscountType)
    (c : PaymentCalculation) : Prop :=
  c.discount = (if dt = .percentage then s * d / 100 else d) ∧
  c.impoconsumo = round2 (max 0 (s - c.discount) * IMPOCONSUMO_RATE) ∧
  c.finalTotal = max 0 (s - c.discount) + c.impoconsumo + round2 t ∧
  0 ≤ c.finalTotal

/-- Modelled from the spec: the variant of `calculateTotals` in which
*every* monetary intermediate value — including `finalSubtotal` — is
rounded to 2 decimal places immediately after it is computed ("values
rounded to cents at each intermediate step, not just at the end").  Used
to show the source does not implement this discipline: the source leaves
`finalSubtotal = max(0, subtotal - discountAmount)` unrounded
(payments-service.ts line 69). -/
def calculateTotals_stepRounded (subtotal : ℚ) (tip : ℚ) (discount : ℚ)
    (discountType : DiscountType) : Except String PaymentCalculation :=
  if subtotal < 0 ∨ tip < 0 ∨ discount < 0 then
    .error "Los montos no pueden ser negativos"
  else
    let discountAmount :=
      if discountType = .percentage then round2 (subtotal * discount / 100)
      else round2 discount
    let finalSubtotal := round2 (max 0 (subtotal - discountAmount))
    let impoconsumo := round2 (finalSubtotal * IMPOCONSUMO_RATE)
    let tipAmount := round2 tip
    let finalTotal := finalSubtotal + impoconsumo + tipAmount
    .ok { subtotal := round2 subtotal
          impoconsumo := impoconsumo
          tip := tipAmount
          discount := discountAmount
          finalTotal := round2 finalTotal }

/-! ### Helper lemmas -/

theorem round2_nonneg {q : ℚ} (hq : 0 ≤ q) : 0 ≤ round2 q := by
  unfold round2 jsRound
  apply div_nonneg _ (by norm_num)
  have h : (0 : ℤ) ≤ ⌊q * 100 + 1 / 2⌋ := by
    rw [Int.le_floor]
    push_cast
    nlinarith
  exact_mod_cast h

theorem round2_idem (q : ℚ) : round2 (round2 q) = round2 q := by
  unfold round2 jsRound
  rw [div_mul_cancel₀ _ (by norm_num : (100 : ℚ) ≠ 0), add_comm,
    Int.floor_add_int]
  norm_num

theorem one_le_length_of_ne_empty (s : String) (h : ¬ s = "") :
    1 ≤ s.length := by
  cases s with
  | mk data =>
    cases data with
    | nil => exact absurd rfl h
    | cons c cs => simp [String.length]

theorem foldl_filter_ne_eq_filter_not_mem (ids : List String)
    (l : List OrderItem) :
    ids.foldl (fun acc id => acc.filter (fun item => ¬ item.id = id)) l
      = l.filter (fun item => ¬ item.id ∈ ids) := by
  induction ids generalizing l with
  | nil => simp
  | cons a as ih =>
    rw [List.foldl_cons, ih, List.filter_filter]
    apply List.filter_congr
    intro x _
    simp [List.mem_cons, not_or, Bool.and_comm]

theorem clearOrderItems_eq_filter_not_mem (l : List OrderItem) (T : Int) :
    clearOrderItems l T
      = l.filter (fun item =>
          ¬ item.id ∈ (l.filter (fun i => i.mesaId = T)).map (fun i => i.id)) := by
  unfold clearOrderItems
  exact foldl_filter_ne_eq_filter_not_mem _ l

theorem getOrderItems_clearOrderItems (l : List OrderItem) (T : Int) :
    getOrderItems (clearOrderItems l T) T = [] := by
  rw [clearOrderItems_eq_filter_not_mem]
  unfold getOrderItems
  rw [List.filter_filter, List.filter_eq_nil_iff]
  intro x hx
  simp only [Bool.and_eq_true, decide_eq_true_eq, not_and]
  intro hmesa
  simp only [List.mem_map, List.mem_filter, decide_eq_true_eq, not_not]
  exact ⟨x, ⟨hx, hmesa⟩, rfl⟩

theorem mem_updateTableStatus (tables : List Table) (id : Int)
    (status : String) :
    ∀ t ∈ (updateTableStatus tables id status).2, t.id = id →
      t.status = status := by
  intro t ht htid
  unfold updateTableStatus at ht
  cases hfind : tables.find? (fun table => table.id = id) with
  | none =>
    rw [hfind] at ht
    simp only at ht
    have := List.find?_eq_none.mp hfind t ht
    simp [htid] at this
  | some table =>
    rw [hfind] at ht
    simp only [List.mem_map] at ht
    obtain ⟨s, _, hs⟩ := ht
    by_cases hsid : s.id = id
    · rw [if_pos hsid] at hs
      rw [← hs]
    · rw [if_neg hsid] at hs
      rw [← hs] at htid
      exact absurd htid hsid

theorem serverSubtotalOf_eq_sum (products : List Product)
    (items : List OrderItem) :
    serverSubtotalOf products items
      = (items.map (fun item =>
          match getProduct products item.productId with
          | some product => (item.quantity : ℚ) * product.price
          | none => 0)).sum := by
  unfold serverSubtotalOf
  suffices h : ∀ (acc : ℚ),
      items.foldl
        (fun acc item =>
          match getProduct products item.productId with
          | some product => acc + (item.quantity : ℚ) * product.price
          | none => acc) acc
        = acc + (items.map (fun item =>
            match getProduct products item.productId with
            | some product => (item.quantity : ℚ) * product.price
            | none => 0)).sum by
    simpa using h 0
  induction items with
  | nil => simp
  | cons x xs ih =>
    intro acc
    simp only [List.foldl_cons, List.map_cons, List.sum_cons]
    cases getProduct products x.productId with
    | none => rw [ih]; ring
    | some p => rw [ih]; ring

theorem processColombianPayment_ok_spec (d : ColombianPaymentData)
    (pr : ProcessedPayment) (h : processColombianPayment d = .ok pr) :
    calculateTotals d.subtotal d.tip d.discount d.discountType
        = .ok pr.calculation ∧
      pr.payment.amount = pr.calculation.finalTotal ∧
      pr.payment.datafonoTransactionId = d.datafonoTransactionId ∧
      pr.payment.datafonoType = d.datafonoType := by
  unfold processColombianPayment at h
  cases hval : validateColombianPayment d with
  | error e => rw [hval] at h; simp at h
  | ok validation =>
    rw [hval] at h
    by_cases hv : validation.isValid
    · cases hcalc : calculateTotals d.subtotal d.tip d.discount
          d.discountType with
      | error e => rw [hcalc] at h; simp [hv] at h
      | ok calculation =>
        rw [hcalc] at h
        simp only [hv, Bool.not_true, Bool.false_eq_true, if_false,
          Except.ok.injEq] at h
        subst h
        exact ⟨rfl, rfl, rfl, rfl⟩
    · simp only [Bool.not_eq_true] at hv
      simp [hv] at h

/-- Exhaustive branch analysis of one settlement run: either the state is
untouched and no payment record was constructed (cache hit, empty ledger,
or validation failure), or the run committed — and then the outcome is
the 500 produced by the `ReferenceError`, the ledger was cleared, the
table freed, and the idempotency cache untouched. -/
theorem settle_cases (env : SettleEnv) (products : List Product)
    (req : SettleRequest) (st : ServerState) :
    ((settle env products req st).state = st ∧
      (settle env products req st).createdPayment = none) ∨
    ((settle env products req st).createdPayment.isSome = true ∧
      (settle env products req st).outcome = .internalError ∧
      (settle env products req st).state.orderItems
        = clearOrderItems st.orderItems req.tableId ∧
      (settle env products req st).state.tables
        = (updateTableStatus st.tables req.tableId "available").2 ∧
      (settle env products req st).state.idempotencyCache
        = st.idempotencyCache) := by
  simp only [settle]
  split
  · exact .inl ⟨rfl, rfl⟩
  · split
    · exact .inl ⟨rfl, rfl⟩
    · split
      · exact .inl ⟨rfl, rfl⟩
      · exact .inr ⟨rfl, rfl, rfl, rfl, rfl⟩

theorem settle_createdPayment_spec (env : SettleEnv)
    (products : List Product) (req : SettleRequest) (st : ServerState)
    (p : PaymentRecord)
    (h : (settle env products req st).createdPayment = some p) :
    ∃ c, calculateTotals
        (serverSubtotalOf products (getOrderItems st.orderItems req.tableId))
        req.tip req.discount req.discountType = .ok c ∧
      p.payment.amount = c.finalTotal := by
  simp only [settle] at h
  split at h
  · simp at h
  · split at h
    · simp at h
    · split at h
      · simp at h
      · rename_i processed hproc
        simp only [Option.some.injEq] at h
        subst h
        obtain ⟨hcalc, hamount, -, -⟩ :=
          processColombianPayment_ok_spec _ _ hproc
        exact ⟨processed.calculation, hcalc, hamount⟩

/-! ### Claim theorems -/

/-- **C2**: whenever a settlement run constructs a payment record, its
`amount` is the `finalTotal` that `calculateTotals` produces from the
server-side subtotal — the sum, over the table's order lines, of
`quantity * parseFloat(product.price)` with the price looked up
server-side — minus the (clamped, rounded) discount, plus the 8% tax,
plus the tip; and the settlement function is literally independent of the
caller-declared `subtotal` and `impoconsumo` fields. -/
theorem settle_amount_is_server_priced (env : SettleEnv)
    (products : List Product) (req : SettleRequest) (st : ServerState) :
    (∀ p, (settle env products req st).createdPayment = some p →
      ∃ c, calculateTotals
          (serverSubtotalOf products
            (getOrderItems st.orderItems req.tableId))
          req.tip req.discount req.discountType = .ok c ∧
        p.payment.amount = c.finalTotal ∧
        serverSubtotalOf products (getOrderItems st.orderItems req.tableId)
          = ((getOrderItems st.orderItems req.tableId).map (fun item =>
              match getProduct products item.productId with
              | some product => (item.quantity : ℚ) * product.price
              | none => 0)).sum) ∧
    (∀ x y, settle env products
        { req with subtotal := x, impoconsumo := y } st
      = settle env products req st) := by
  refine ⟨fun p hp => ?_, fun x y => rfl⟩
  obtain ⟨c, hc, ha⟩ := settle_createdPayment_spec env products req st p hp
  exact ⟨c, hc, ha, serverSubtotalOf_eq_sum products _⟩

/-- Witness for **C2** at a concrete cash settlement of table 1: server
subtotal `2 * 24.50 = 49.00` and recorded amount `52.92`, although the
caller declared `subtotal := 999`. -/
theorem settle_amount_is_server_priced_witness :
    ∃ c, calculateTotals
        (serverSubtotalOf demoProducts
          (getOrderItems demoState.orderItems demoReqCash.tableId))
        demoReqCash.tip demoReqCash.discount demoReqCash.discountType
        = .ok c ∧
      ((settle demoEnv demoProducts demoReqCash
          demoState).createdPayment.getD dummyPayment).payment.amount
        = c.finalTotal ∧
      serverSubtotalOf demoProducts
          (getOrderItems demoState.orderItems demoReqCash.tableId)
        = ((getOrderItems demoState.orderItems demoReqCash.tableId).map
            (fun item =>
              match getProduct demoProducts item.productId with
              | some product => (item.quantity : ℚ) * product.price
              | none => 0)).sum :=
  (settle_amount_is_server_priced demoEnv demoProducts demoReqCash
      demoState).1
    ((settle demoEnv demoProducts demoReqCash
        demoState).createdPayment.getD dummyPayment)
    (by with_unfolding_all rfl)

/-- **C4**: a settlement run that constructs a payment record (reaches the
commit of routes.ts lines 586-588) leaves the table's order ledger empty
and every registry entry for that table with status `available`; a run
aborted by validation (the thrown error list of routes.ts lines 489-497)
leaves the entire server state untouched. -/
theorem settle_commit_and_validation_frame (env : SettleEnv)
    (products : List Product) (req : SettleRequest) (st : ServerState) :
    ((settle env products req st).createdPayment.isSome = true →
      getOrderItems (settle env products req st).state.orderItems
          req.tableId = [] ∧
        ∀ t ∈ (settle env products req st).state.tables,
          t.id = req.tableId → t.status = "available") ∧
    (∀ msg, (settle env products req st).outcome = .validationFailed msg →
      (settle env products req st).state = st) := by
  constructor
  · intro h
    rcases settle_cases env products req st with
      ⟨-, hnone⟩ | ⟨-, -, hitems, htables, -⟩
    · rw [hnone] at h; simp at h
    · constructor
      · rw [hitems]; exact getOrderItems_clearOrderItems _ _
      · intro t ht htid
        rw [htables] at ht
        exact mem_updateTableStatus _ _ _ t ht htid
  · intro msg hmsg
    rcases settle_cases env products req st with ⟨hst, -⟩ | ⟨-, hout, -⟩
    · exact hst
    · rw [hout] at hmsg; simp at hmsg

/-- Witness for **C4**: the committed run of the concrete cash settlement
empties table 1's ledger and frees table 1, and the same settlement with
insufficient cash (`10 < 52.92`) fails validation and leaves the state
exactly as it was. -/
theorem settle_commit_and_validation_frame_witness :
    (getOrderItems (settle demoEnv demoProducts demoReqCash
          demoState).state.orderItems demoReqCash.tableId = [] ∧
      ∀ t ∈ (settle demoEnv demoProducts demoReqCash demoState).state.tables,
        t.id = demoReqCash.tableId → t.status = "available") ∧
    (settle demoEnv demoProducts demoReqShortCash demoState).state
      = demoState :=
  ⟨(settle_commit_and_validation_frame demoEnv demoProducts demoReqCash
        demoState).1 (by with_unfolding_all rfl),
    (settle_commit_and_validation_frame demoEnv demoProducts
        demoReqShortCash demoState).2 _ (by with_unfolding_all rfl)⟩

/-- **C1**: the idempotency cache is invariant under every settlement run
— the cache write of routes.ts line 640 is unreachable because building
`responseData` throws a `ReferenceError` on the out-of-scope
`invoiceWorkflowResponse` — and concretely: a first byte-identical
request returns the 500 of the outer catch while still committing, and
its immediate retry does not return the first call's result but fails
with "No order items found for this table" on the now-empty ledger. -/
theorem settle_retry_not_idempotent :
    (∀ env products req st,
      (settle env products req st).state.idempotencyCache
        = st.idempotencyCache) ∧
    (settle demoEnv demoProducts demoReqCash demoState).outcome
      = .internalError ∧
    (settle demoEnv demoProducts demoReqCash
        demoState).createdPayment.isSome = true ∧
    (settle demoEnv demoProducts demoReqCash
        (settle demoEnv demoProducts demoReqCash demoState).state).outcome
      = .noItems ∧
    (settle demoEnv demoProducts demoReqCash
        (settle demoEnv demoProducts demoReqCash
          demoState).state).createdPayment = none := by
  refine ⟨fun env products req st => ?_, ?_, ?_, ?_, ?_⟩
  · rcases settle_cases env products req st with ⟨hst, -⟩ | ⟨-, -, -, -, hc⟩
    · rw [hst]
    · exact hc
  · with_unfolding_all rfl
  · with_unfolding_all rfl
  · with_unfolding_all rfl
  · with_unfolding_all rfl

/-- **C7**: when the added product exists, the table currently has no
order lines, and the table's registry entry has status `available`, the
`POST /api/order-items` handler transitions that entry to `occupied` as a
server-side effect of the add (and reports `tableStatusChanged = true`),
with no separate status call by the client. -/
theorem postOrderItem_first_item_occupies (newId : String)
    (products : List Product) (orderItemData : InsertOrderItem)
    (st : ServerState) (product : Product) (table : Table)
    (hprod : getProduct products orderItemData.productId = some product)
    (hempty : getOrderItems st.orderItems orderItemData.mesaId = [])
    (htable : getTable st.tables orderItemData.mesaId = some table)
    (havail : table.status = "available") :
    (∀ t ∈ (postOrderItem newId products orderItemData st).2.tables,
        t.id = orderItemData.mesaId → t.status = "occupied") ∧
    (postOrderItem newId products orderItemData st).1
      = .created (createOrderItem st.orderItems newId orderItemData).1
          true := by
  have hred : postOrderItem newId products orderItemData st
      = (.created (createOrderItem st.orderItems newId orderItemData).1 true,
        { st with
          orderItems := (createOrderItem st.orderItems newId orderItemData).2
          tables :=
            (updateTableStatus st.tables orderItemData.mesaId "occupied").2 }) := by
    unfold postOrderItem
    rw [hprod, hempty, htable]
    simp [havail]
  rw [hred]
  exact ⟨fun t ht htid => mem_updateTableStatus _ _ _ t ht htid, rfl⟩

/-- Witness for **C7**: adding the first item to table 3 (status
`available`, empty ledger in `demoState`) marks table 3 `occupied`. -/
theorem postOrderItem_first_item_occupies_witness :
    (∀ t ∈ (postOrderItem "new1" demoProducts demoInsertItem
        demoState).2.tables,
      t.id = demoInsertItem.mesaId → t.status = "occupied") ∧
    (postOrderItem "new1" demoProducts demoInsertItem demoState).1
      = .created
          (createOrderItem demoState.orderItems "new1" demoInsertItem).1
          true :=
  postOrderItem_first_item_occupies "new1" demoProducts demoInsertItem
    demoState prodPaella demoTable3
    (by with_unfolding_all rfl) (by with_unfolding_all rfl)
    (by with_unfolding_all rfl) rfl

/-- **C9**: when the order-item map keys are distinct (the `Map`
invariant), clearing a table removes exactly the lines whose `mesaId` is
that table and keeps every line of every other table unchanged, in
order. -/
theorem clearOrderItems_exactly_table (l : List OrderItem) (T : Int)
    (hids : (l.map (fun item => item.id)).Nodup) :
    clearOrderItems l T = l.filter (fun item => ¬ item.mesaId = T) := by
  rw [clearOrderItems_eq_filter_not_mem]
  apply List.filter_congr
  intro x hx
  rw [decide_eq_decide]
  apply not_congr
  constructor
  · intro hmem
    simp only [List.mem_map, List.mem_filter, decide_eq_true_eq] at hmem
    obtain ⟨y, ⟨hyl, hyT⟩, hyid⟩ := hmem
    have := List.inj_on_of_nodup_map hids hyl hx hyid
    rw [← this]
    exact hyT
  · intro hT
    simp only [List.mem_map, List.mem_filter, decide_eq_true_eq]
    exact ⟨x, ⟨hx, hT⟩, rfl⟩

/-- Witness for **C9**: clearing table 1 in the two-table demo ledger
removes `it1` and keeps table 2's `it2` unchanged. -/
theorem clearOrderItems_exactly_table_witness :
    clearOrderItems demoState.orderItems 1
      = demoState.orderItems.filter (fun item => ¬ item.mesaId = 1) :=
  clearOrderItems_exactly_table demoState.orderItems 1 (by decide)

/-- **C5** (bug exhibition): updating order line `it1` — owned by table 1
— with `mesa_id = 2` does *not* fail with not-found: the storage layer
returns the found line even on a mesa mismatch, so the route answers
HTTP 200 with the stale line instead of the 404 its own error message
("Order item not found or does not belong to this mesa") is written for.
The line is, however, never mutated, and `deleteOrderItem` behaves as
specified (returns `false`, mutates nothing). -/
theorem updateOrderItem_mesa_mismatch_not_found_bug :
    updateOrderItemQuantity demoState.orderItems "it1" 5 2
        = (some demoItemMesa1, demoState.orderItems) ∧
    (putOrderItemRoute demoProducts "it1" 5 2 demoState).1
        = .ok demoItemMesa1 ∧
    (putOrderItemRoute demoProducts "it1" 5 2 demoState).2 = demoState ∧
    deleteOrderItem demoState.orderItems "it1" 2
        = (false, demoState.orderItems) ∧
    (deleteOrderItemRoute "it1" 2 demoState).1
        = .notFound "Order item not found or does not belong to this mesa" := by
  refine ⟨?_, ?_, ?_, ?_, ?_⟩ <;> with_unfolding_all rfl

/-- **C10**: `calculateTotals` throws exactly when `subtotal`, `tip` or
`discount` is negative; every combination of non-negative inputs —
including a zero subtotal — yields a breakdown.  A zero subtotal is
rejected only by `validateColombianPayment` ("Subtotal debe ser mayor
que cero"), as the concrete conjuncts show. -/
theorem calculateTotals_throws_iff_negative :
    (∀ s t d : ℚ, ∀ dt : DiscountType,
      (∃ c, calculateTotals s t d dt = .ok c) ↔
        (0 ≤ s ∧ 0 ≤ t ∧ 0 ≤ d)) ∧
    calculateTotals 0 0 0 .percentage
      = .ok { subtotal := 0, impoconsumo := 0, tip := 0, discount := 0,
              finalTotal := 0 } ∧
    validateColombianPayment demoZeroSubtotalData
      = .ok { isValid := false,
              errors := ["Subtotal debe ser mayor que cero"] } := by
  refine ⟨fun s t d dt => ?_, by with_unfolding_all rfl,
    by with_unfolding_all rfl⟩
  unfold calculateTotals
  by_cases hneg : s < 0 ∨ t < 0 ∨ d < 0
  · rw [if_pos hneg]
    constructor
    · rintro ⟨c, hc⟩
      exact absurd hc (by simp)
    · rintro ⟨h1, h2, h3⟩
      rcases hneg with h | h | h <;> linarith
  · rw [if_neg hneg]
    push_neg at hneg
    exact ⟨fun _ => hneg, fun _ => ⟨_, rfl⟩⟩

/-- **C3 counterexample**: at `subtotal = 10.01`, `discount = 5` percent,
the code returns `discountAmount = 0.50` (it rounds
`subtotal*discount/100 = 0.5005` to cents), so the claim's literal
formula `discountAmount = subtotal*discount/100` does not hold of the
returned breakdown. -/
theorem calculateTotals_claim_literal_counterexample :
    calculateTotals 10.01 0 5 .percentage
        = .ok { subtotal := 10.01, impoconsumo := 0.76, tip := 0,
                discount := 0.50, finalTotal := 10.27 } ∧
    ¬ ClaimedBreakdown 10.01 0 5 .percentage
        { subtotal := 10.01, impoconsumo := 0.76, tip := 0,
          discount := 0.50, finalTotal := 10.27 } := by
  refine ⟨by with_unfolding_all rfl, ?_⟩
  rintro ⟨h1, -, -, -⟩
  rw [if_pos rfl] at h1
  norm_num at h1

/-- **C3 (amended)**: for all non-negative inputs, `calculateTotals`
computes `discountAmount` as `round2(subtotal*discount/100)` for a
percentage discount and `round2(discount)` for a fixed one, clamps
`finalSubtotal = max(0, subtotal - discountAmount)` (unrounded), computes
`tax = round2(finalSubtotal * 0.08)` with the code's fixed
`IMPOCONSUMO_RATE`, and returns
`finalTotal = round2(finalSubtotal + tax + round2(tip))`; the returned
`finalTotal` is never negative, even when the discount exceeds 100%. -/
theorem calculateTotals_amended_spec (s t d : ℚ) (dt : DiscountType)
    (hs : 0 ≤ s) (ht : 0 ≤ t) (hd : 0 ≤ d) :
    calculateTotals s t d dt
        = .ok { subtotal := round2 s
                impoconsumo := round2 (max 0 (s - discountAmountOf s d dt)
                  * IMPOCONSUMO_RATE)
                tip := round2 t
                discount := discountAmountOf s d dt
                finalTotal := round2 (max 0 (s - discountAmountOf s d dt)
                  + round2 (max 0 (s - discountAmountOf s d dt)
                      * IMPOCONSUMO_RATE)
                  + round2 t) } ∧
    (∀ c, calculateTotals s t d dt = .ok c → 0 ≤ c.finalTotal) := by
  have hok : calculateTotals s t d dt
      = .ok { subtotal := round2 s
              impoconsumo := round2 (max 0 (s - discountAmountOf s d dt)
                * IMPOCONSUMO_RATE)
              tip := round2 t
              discount := discountAmountOf s d dt
              finalTotal := round2 (max 0 (s - discountAmountOf s d dt)
                + round2 (max 0 (s - discountAmountOf s d dt)
                    * IMPOCONSUMO_RATE)
                + round2 t) } := by
    unfold calculateTotals discountAmountOf
    rw [if_neg (by push_neg; exact ⟨hs, ht, hd⟩)]
  refine ⟨hok, fun c hc => ?_⟩
  rw [hok] at hc
  simp only [Except.ok.injEq] at hc
  subst hc
  apply round2_nonneg
  have hbase : (0 : ℚ) ≤ max 0 (s - discountAmountOf s d dt) :=
    le_max_left 0 _
  have htax : (0 : ℚ) ≤ round2 (max 0 (s - discountAmountOf s d dt)
      * IMPOCONSUMO_RATE) :=
    round2_nonneg (mul_nonneg hbase (by norm_num [IMPOCONSUMO_RATE]))
  have htip : (0 : ℚ) ≤ round2 t := round2_nonneg ht
  positivity

/-- Witness for **C3 (amended)** at `subtotal = 10`, `tip = 1`,
`discount = 150` percent: the clamp fires and the total stays
non-negative. -/
theorem calculateTotals_amended_spec_witness :
    calculateTotals 10 1 150 .percentage
        = .ok { subtotal := round2 10
                impoconsumo := round2 (max 0 (10 - discountAmountOf 10 150
                  .percentage) * IMPOCONSUMO_RATE)
                tip := round2 1
                discount := discountAmountOf 10 150 .percentage
                finalTotal := round2 (max 0 (10 - discountAmountOf 10 150
                    .percentage)
                  + round2 (max 0 (10 - discountAmountOf 10 150 .percentage)
                      * IMPOCONSUMO_RATE)
                  + round2 1) } ∧
    (∀ c, calculateTotals 10 1 150 .percentage = .ok c →
      0 ≤ c.finalTotal) :=
  calculateTotals_amended_spec 10 1 150 .percentage (by norm_num)
    (by norm_num) (by norm_num)

/-- **C6 counterexample**: at `subtotal = 12.5625` the code returns
`finalTotal = 13.57`, while rounding every monetary intermediate —
including `finalSubtotal` — immediately after computing it returns
`13.56`: the code does not round `finalSubtotal` (payments-service.ts
line 69), so not every intermediate is rounded to 2 decimal places
immediately after it is computed. -/
theorem calculateTotals_not_stepwise_rounded :
    calculateTotals 12.5625 0 0 .percentage
        = .ok { subtotal := 12.56, impoconsumo := 1.01, tip := 0,
                discount := 0, finalTotal := 13.57 } ∧
    calculateTotals_stepRounded 12.5625 0 0 .percentage
        = .ok { subtotal := 12.56, impoconsumo := 1.00, tip := 0,
                discount := 0, finalTotal := 13.56 } ∧
    calculateTotals 12.5625 0 0 .percentage
      ≠ calculateTotals_stepRounded 12.5625 0 0 .percentage := by
  have h1 : calculateTotals 12.5625 0 0 .percentage
      = .ok { subtotal := 12.56, impoconsumo := 1.01, tip := 0,
              discount := 0, finalTotal := 13.57 } := by
    with_unfolding_all rfl
  have h2 : calculateTotals_stepRounded 12.5625 0 0 .percentage
      = .ok { subtotal := 12.56, impoconsumo := 1.00, tip := 0,
              discount := 0, finalTotal := 13.56 } := by
    with_unfolding_all rfl
  refine ⟨h1, h2, fun h => ?_⟩
  rw [h1, h2] at h
  simp only [Except.ok.injEq, PaymentCalculation.mk.injEq] at h
  obtain ⟨-, himp, -, -, -⟩ := h
  norm_num at himp

/-- **C6 (amended)**: `price(19.99, 0, 0)` with the code's 8% rate yields
tax `1.60` and total `21.59`; the *computed* monetary amounts — the
rounded subtotal, discountAmount, tax, tip and finalTotal — are each
stable under cent-rounding (they are rounded when produced), but the
intermediate `finalSubtotal` is not rounded and feeds unrounded into the
tax and total computation. -/
theorem calculateTotals_rounding_stability :
    calculateTotals 19.99 0 0 .percentage
        = .ok { subtotal := 19.99, impoconsumo := 1.60, tip := 0,
                discount := 0, finalTotal := 21.59 } ∧
    (∀ (s t d : ℚ) (dt : DiscountType) (c : PaymentCalculation),
      calculateTotals s t d dt = .ok c →
        c.subtotal = round2 c.subtotal ∧
        c.discount = round2 c.discount ∧
        c.impoconsumo = round2 c.impoconsumo ∧
        c.tip = round2 c.tip ∧
        c.finalTotal = round2 c.finalTotal) := by
  refine ⟨by with_unfolding_all rfl, fun s t d dt c hc => ?_⟩
  unfold calculateTotals at hc
  split_ifs at hc with hneg hdt
  · simp only [Except.ok.injEq] at hc
    subst hc
    exact ⟨(round2_idem _).symm, (round2_idem _).symm, (round2_idem _).symm,
      (round2_idem _).symm, (round2_idem _).symm⟩
  · simp only [Except.ok.injEq] at hc
    subst hc
    exact ⟨(round2_idem _).symm, (round2_idem _).symm, (round2_idem _).symm,
      (round2_idem _).symm, (round2_idem _).symm⟩

/-- Witness for **C6 (amended)** at `subtotal = 1`: the breakdown
`(1, 0.08, 0, 0, 1.08)` is componentwise stable under cent-rounding. -/
theorem calculateTotals_rounding_stability_witness :
    (1 : ℚ) = round2 1 ∧ (0 : ℚ) = round2 0 ∧
      (0.08 : ℚ) = round2 0.08 ∧ (0 : ℚ) = round2 0 ∧
      (1.08 : ℚ) = round2 1.08 :=
  calculateTotals_rounding_stability.2 1 0 0 .percentage
    { subtotal := 1, impoconsumo := 0.08, tip := 0, discount := 0,
      finalTotal := 1.08 }
    (by with_unfolding_all rfl)

/-- **C8**: for a card-terminal (`datafono_debito`/`datafono_credito`)
payment, the validator never throws, it reports the transaction-id error
exactly when the id is absent or trims to the empty string, and a request
it accepts carries a transaction id of trimmed length at least 1 (the
enforced minimum-length threshold) together with a terminal kind.  The
processed payment stores exactly the supplied transaction id and terminal
kind; no type of the data model (`ColombianPaymentData`, `InsertPayment`,
the `payments` table) has a card-number field, so no primary account
number can be accepted or stored. -/
theorem validate_datafono_requires_txn_id (d : ColombianPaymentData)
    (hm : d.paymentMethod = "datafono_debito" ∨
      d.paymentMethod = "datafono_credito") :
    ∃ r, validateColombianPayment d = .ok r ∧
      (("ID de transacción de datáfono es requerido" ∈ r.errors) ↔
        (d.datafonoTransactionId = none ∨
          ∃ s, d.datafonoTransactionId = some s ∧ s.trim = "")) ∧
      (r.isValid = true →
        ∃ s, d.datafonoTransactionId = some s ∧ 1 ≤ s.trim.length ∧
          ¬ d.datafonoType = none) ∧
      (∀ pr, processColombianPayment d = .ok pr →
        pr.payment.datafonoTransactionId = d.datafonoTransactionId ∧
        pr.payment.datafonoType = d.datafonoType) := by
  have hnefe : ¬ d.paymentMethod = "efectivo" := by
    rcases hm with h | h <;> simp [h]
  have hschema : paymentMethodSchemaOk d.paymentMethod = true := by
    rcases hm with h | h <;> simp [paymentMethodSchemaOk, h]
  have hproc : ∀ pr, processColombianPayment d = .ok pr →
      pr.payment.datafonoTransactionId = d.datafonoTransactionId ∧
      pr.payment.datafonoType = d.datafonoType :=
    fun pr hpr => ⟨(processColombianPayment_ok_spec d pr hpr).2.2.1,
      (processColombianPayment_ok_spec d pr hpr).2.2.2⟩
  unfold validateColombianPayment
  simp only [hnefe, hschema, hm, if_true, if_false, ite_true, ite_false]
  cases htxn : d.datafonoTransactionId with
  | none =>
    refine ⟨_, rfl, ?_, ?_, fun pr hpr =>
      ⟨(hproc pr hpr).1.trans htxn, (hproc pr hpr).2⟩⟩
    · split_ifs <;> simp
    · intro hval
      exfalso
      revert hval
      split_ifs <;> simp
  | some s =>
    by_cases hts : s.trim = ""
    · simp only [hts, ite_true, if_pos hts]
      refine ⟨_, rfl, ?_, ?_, fun pr hpr =>
        ⟨(hproc pr hpr).1.trans htxn, (hproc pr hpr).2⟩⟩
      · split_ifs <;> simp [htxn, hts]
      · intro hval
        exfalso
        revert hval
        split_ifs <;> simp
    · simp only [if_neg hts]
      by_cases hty : d.datafonoType = none
      · simp only [hty, ite_true, if_pos hty]
        refine ⟨_, rfl, ?_, ?_, fun pr hpr =>
          ⟨(hproc pr hpr).1.trans htxn, (hproc pr hpr).2.trans hty⟩⟩
        · constructor
          · intro hmem
            exfalso
            revert hmem
            split_ifs <;> simp
          · rintro (h | ⟨s', hs', hs'trim⟩)
            · cases h
            · rw [Option.some.injEq] at hs'
              exact absurd (hs' ▸ hs'trim) hts
        · intro hval
          exfalso
          revert hval
          split_ifs <;> simp
      · simp only [if_neg hty]
        refine ⟨_, rfl, ?_, ?_, fun pr hpr =>
          ⟨(hproc pr hpr).1.trans htxn, (hproc pr hpr).2⟩⟩
        · constructor
          · intro hmem
            exfalso
            revert hmem
            split_ifs <;> simp
          · rintro (h | ⟨s', hs', hs'trim⟩)
            · cases h
            · rw [Option.some.injEq] at hs'
              exact absurd (hs' ▸ hs'trim) hts
        · intro hval
          exact ⟨s, rfl, one_le_length_of_ne_empty s.trim hts, hty⟩

/-- Witness for **C8** at a concrete valid card-terminal request
(transaction id `"TX-778899"`, kind `debito`). -/
theorem validate_datafono_requires_txn_id_witness :
    ∃ r, validateColombianPayment demoDatafonoData = .ok r ∧
      (("ID de transacción de datáfono es requerido" ∈ r.errors) ↔
        (demoDatafonoData.datafonoTransactionId = none ∨
          ∃ s, demoDatafonoData.datafonoTransactionId = some s ∧
            s.trim = "")) ∧
      (r.isValid = true →
        ∃ s, demoDatafonoData.datafonoTransactionId = some s ∧
          1 ≤ s.trim.length ∧ ¬ demoDatafonoData.datafonoType = none) ∧
      (∀ pr, processColombianPayment demoDatafonoData = .ok pr →
        pr.payment.datafonoTransactionId
            = demoDatafonoData.datafonoTransactionId ∧
          pr.payment.datafonoType = demoDatafonoData.datafonoType) :=
  validate_datafono_requires_txn_id demoDatafonoData (Or.inl rfl)

end RestaurantPos
